import Mathlib

/-! Verification of the analytics aggregation and insight-synthesis pipeline of a
support-chat summary-email system.  The definitions below are shallow embeddings of
the TypeScript services (`AnalyticsService`, `InsightsService`,
`OpenAIAnalysisService.aggregateAnalyses`): JS numbers are modelled as exact
rationals, JS `Map` / `Set` as association lists keeping insertion order, optional
or nullable fields as `Option`, and `Array.prototype.sort` (stable since ES2019) as
insertion sort. -/

/-- Interface `ChatLog`.  `metadata?.responseTime` and `metadata?.appVersion` are
lifted to optional fields; `timestamp` is epoch milliseconds. -/
structure ChatLog where
  id : String := ""
  conversationId : Option String := none
  userId : Option String := none
  userMessage : Option String := none
  botResponse : Option String := none
  timestamp : Option Nat := none
  sessionDuration : Option ℚ := none
  resolved : Option Bool := none
  rating : Option ℚ := none
  category : Option String := none
  error : Option Bool := none
  platform : Option String := none
  responseTime : Option ℚ := none
  appVersion : Option String := none

structure CategoryCount where
  category : String
  count : Nat
  percentage : ℚ
deriving DecidableEq

structure HourlyCount where
  hour : Nat
  count : Nat
deriving DecidableEq

structure DailyCount where
  date : String
  count : Nat
  resolved : Nat
  errors : Nat
deriving DecidableEq

structure IssuePattern where
  pattern : String
  frequency : Nat
  examples : List String
deriving DecidableEq

structure SentimentAnalysis where
  positive : ℚ
  neutral : ℚ
  negative : ℚ
deriving DecidableEq

structure ResponseTimeStats where
  average : ℚ
  median : ℚ
  p95 : ℚ
  p99 : ℚ
deriving DecidableEq

structure PlatformCount where
  platform : String
  count : Nat
  percentage : ℚ
deriving DecidableEq

structure VersionCount where
  version : String
  count : Nat
  percentage : ℚ
deriving DecidableEq

/-- JS string truthiness for an optional string field: the empty string is falsy. -/
def truthyStr (o : Option String) : Option String :=
  o.bind (fun s => if s = "" then none else some s)

/-- JS `Map.set k v`: replace the first binding of `k` in place, else append
(a JS `Map` iterates in key-insertion order). -/
def setAssoc {κ β : Type} [BEq κ] : List (κ × β) → κ → β → List (κ × β)
  | [], k, v => [(k, v)]
  | p :: rest, k, v => if p.1 == k then (k, v) :: rest else p :: setAssoc rest k v

/-- JS `map.get k ?? d` (the first binding of `k`, else the default). -/
def lookupD {κ β : Type} [BEq κ] : List (κ × β) → κ → β → β
  | [], _, d => d
  | p :: rest, k, d => if p.1 == k then p.2 else lookupD rest k d

/-- JS `map.set(k, (map.get(k) || 0) + 1)`. -/
def bumpCount {κ : Type} [BEq κ] (m : List (κ × Nat)) (k : κ) : List (κ × Nat) :=
  setAssoc m k (lookupD m k 0 + 1)

/-- Frequency table of a key list, in key-insertion order. -/
def countByKey {κ : Type} [BEq κ] (keys : List κ) : List (κ × Nat) :=
  keys.foldl bumpCount []

/-- `AnalyticsService.calculateResolvedRate`. -/
def calculateResolvedRate (logs : List ChatLog) : ℚ :=
  if logs.length = 0 then 0
  else ((logs.filter (fun log => log.resolved == some true)).length : ℚ) / logs.length * 100

/-- `AnalyticsService.calculateErrorRate`. -/
def calculateErrorRate (logs : List ChatLog) : ℚ :=
  if logs.length = 0 then 0
  else ((logs.filter (fun log => log.error == some true)).length : ℚ) / logs.length * 100

/-- `AnalyticsService.getTopCategories`: count logs per present (truthy) category,
percentage over the full log count, sort by count descending, keep the top 10. -/
def getTopCategories (logs : List ChatLog) : List CategoryCount :=
  let categoryMap := countByKey (logs.filterMap (fun log => truthyStr log.category))
  let total := logs.length
  ((categoryMap.map (fun p => CategoryCount.mk p.1 p.2 ((p.2 : ℚ) / total * 100))).insertionSort
    (fun a b => b.count ≤ a.count)).take 10

/-- `AnalyticsService.getHourlyDistribution`.  `getHours` abstracts
`new Date(t).getHours()`, whose range is 0..23 by the ECMAScript specification. -/
def getHourlyDistribution (getHours : Nat → Fin 24) (logs : List ChatLog) : List HourlyCount :=
  let hourlyMap := logs.foldl (fun m log =>
    match log.timestamp with
    | some t => bumpCount m (getHours t).val
    | none => m) []
  (List.range 24).map (fun hour => HourlyCount.mk hour (lookupD hourlyMap hour 0))

/-- The response-time samples collected by `AnalyticsService.analyzeResponseTimes`:
`metadata?.responseTime` must be present and truthy (a 0 sample is falsy in JS). -/
def collectResponseTimes (logs : List ChatLog) : List ℚ :=
  logs.filterMap (fun log => log.responseTime.bind (fun v => if v = 0 then none else some v))

/-- `AnalyticsService.analyzeResponseTimes`: sort ascending, nearest-rank
percentiles at `Math.floor(n/2)`, `Math.floor(n*0.95)`, `Math.floor(n*0.99)`. -/
def analyzeResponseTimes (logs : List ChatLog) : ResponseTimeStats :=
  let responseTimes := collectResponseTimes logs
  if responseTimes.length = 0 then ⟨0, 0, 0, 0⟩
  else
    let sorted := responseTimes.insertionSort (· ≤ ·)
    let n := responseTimes.length
    ⟨sorted.sum / n, sorted.getD (n / 2) 0, sorted.getD (n * 95 / 100) 0,
      sorted.getD (n * 99 / 100) 0⟩

/-- `AnalyticsService.getPlatformDistribution`. -/
def getPlatformDistribution (logs : List ChatLog) : List PlatformCount :=
  let platformMap := countByKey (logs.filterMap (fun log => truthyStr log.platform))
  let total := logs.length
  (platformMap.map (fun p => PlatformCount.mk p.1 p.2 ((p.2 : ℚ) / total * 100))).insertionSort
    (fun a b => b.count ≤ a.count)

/-- `AnalyticsService.getAppVersions`. -/
def getAppVersions (logs : List ChatLog) : List VersionCount :=
  let versionMap := countByKey (logs.filterMap (fun log => truthyStr log.appVersion))
  let total := logs.length
  ((versionMap.map (fun p => VersionCount.mk p.1 p.2 ((p.2 : ℚ) / total * 100))).insertionSort
    (fun a b => b.count ≤ a.count)).take 10

/-- Left-pad with zeros to `len` characters. -/
def padZeros (s : String) (len : Nat) : String :=
  String.mk (List.replicate (len - s.length) '0') ++ s

/-- JS `Number.prototype.toFixed`: round to the nearest multiple of `10^-digits`,
ties towards the larger value. -/
def ratToFixed (digits : Nat) (x : ℚ) : String :=
  let scaled : Int := ⌊x * (10 : ℚ) ^ digits + 1/2⌋
  let sign := if scaled < 0 then "-" else ""
  let a := scaled.natAbs
  if digits = 0 then sign ++ toString a
  else sign ++ toString (a / 10 ^ digits) ++ "." ++ padZeros (toString (a % 10 ^ digits)) digits

/-- JS `Math.round`: half-up towards positive infinity. -/
def jsRound (x : ℚ) : Int := ⌊x + 1/2⌋

/-- Interface `Analytics`, the output of `AnalyticsService.analyzeLogsAggregation`
and the input of `InsightsService`. -/
structure Analytics where
  totalConversations : Nat := 0
  uniqueUsers : Nat := 0
  averageSessionDuration : ℚ := 0
  averageRating : ℚ := 0
  resolvedRate : ℚ := 0
  errorRate : ℚ := 0
  topCategories : List CategoryCount := []
  hourlyDistribution : List HourlyCount := []
  dailyTrend : List DailyCount := []
  commonIssues : List IssuePattern := []
  userSentiment : SentimentAnalysis := ⟨0, 0, 0⟩
  responseTimeAnalysis : ResponseTimeStats := ⟨0, 0, 0, 0⟩
  platformDistribution : List PlatformCount := []
  appVersions : List VersionCount := []
  averageMessagesPerSession : ℚ := 0
  sessionsWithActions : Nat := 0
  totalMessages : Nat := 0
  averageMessageLength : ℚ := 0

inductive Trend where
  | up
  | down
  | stable
deriving DecidableEq

/-- A key-metric value is either a raw number or a formatted string. -/
inductive MetricValue where
  | num (q : ℚ)
  | str (s : String)
deriving DecidableEq

structure KeyMetric where
  name : String
  value : MetricValue
  change : Option String := none
  trend : Option Trend := none
deriving DecidableEq

inductive AlertSeverity where
  | high
  | medium
  | low
deriving DecidableEq

structure Alert where
  severity : AlertSeverity
  message : String
  metric : Option String := none
  value : Option ℚ := none
deriving DecidableEq

/-- `InsightsService.calculateChange`. -/
def calculateChange (current previous : ℚ) : String :=
  if previous = 0 then "+100%"
  else
    let change := (current - previous) / previous * 100
    (if change ≥ 0 then "+" else "") ++ ratToFixed 1 change ++ "%"

/-- `InsightsService.getTrend` (threshold 0.05). -/
def getTrend (current previous : ℚ) : Trend :=
  if current > previous * (1 + 1/20) then .up
  else if current < previous * (1 - 1/20) then .down
  else .stable

/-- `InsightsService.generateKeyMetrics`: the fixed six-metric list. -/
def generateKeyMetrics (analytics : Analytics) (previous : Option Analytics) : List KeyMetric :=
  [ { name := "Total Conversations", value := .num analytics.totalConversations,
      change := previous.map (fun p => calculateChange analytics.totalConversations p.totalConversations),
      trend := previous.map (fun p => getTrend analytics.totalConversations p.totalConversations) },
    { name := "Active Users", value := .num analytics.uniqueUsers,
      change := previous.map (fun p => calculateChange analytics.uniqueUsers p.uniqueUsers),
      trend := previous.map (fun p => getTrend analytics.uniqueUsers p.uniqueUsers) },
    { name := "Resolution Rate", value := .str (ratToFixed 1 analytics.resolvedRate ++ "%"),
      change := previous.map (fun p => calculateChange analytics.resolvedRate p.resolvedRate),
      trend := previous.map (fun p => getTrend analytics.resolvedRate p.resolvedRate) },
    { name := "Average Rating", value := .str (ratToFixed 2 analytics.averageRating),
      change := previous.map (fun p => calculateChange analytics.averageRating p.averageRating),
      trend := previous.map (fun p => getTrend analytics.averageRating p.averageRating) },
    { name := "Error Rate", value := .str (ratToFixed 1 analytics.errorRate ++ "%"),
      change := previous.map (fun p => calculateChange analytics.errorRate p.errorRate),
      trend := some (match previous with
        | some p => getTrend analytics.errorRate p.errorRate
        | none => .stable) },
    { name := "Avg Session Duration",
      value := .str (toString (jsRound (analytics.averageSessionDuration / 60)) ++ " min"),
      change := none,
      trend := some .stable } ]

/-- The peak-hour fold in `InsightsService.generateAlerts`:
`hourlyDistribution.reduce((max, hour) => hour.count > max.count ? hour : max, hd[0])`,
guarded by `hd[0]` being defined. -/
def peakHourAlert (analytics : Analytics) : List Alert :=
  match analytics.hourlyDistribution with
  | [] => []
  | h0 :: _ =>
    let peakHour := analytics.hourlyDistribution.foldl
      (fun max hour => if hour.count > max.count then hour else max) h0
    if (peakHour.count : ℚ) > (analytics.totalConversations : ℚ) * (15/100) then
      [{ severity := .low,
         message := "High traffic concentration at " ++ toString peakHour.hour ++ ":00 (" ++
           toString peakHour.count ++ " conversations)",
         metric := some "trafficPeak", value := some peakHour.count }]
    else []

/-- `InsightsService.generateAlerts`: the five threshold rules plus the peak-hour rule,
in source order. -/
def generateAlerts (analytics : Analytics) : List Alert :=
  (if analytics.errorRate > 10 then
    [{ severity := .high,
       message := "High error rate detected: " ++ ratToFixed 1 analytics.errorRate ++ "%",
       metric := some "errorRate", value := some analytics.errorRate }]
   else []) ++
  (if analytics.resolvedRate < 60 then
    [{ severity := .high,
       message := "Low resolution rate: " ++ ratToFixed 1 analytics.resolvedRate ++ "%",
       metric := some "resolvedRate", value := some analytics.resolvedRate }]
   else []) ++
  (if analytics.averageRating < 3 ∧ analytics.averageRating > 0 then
    [{ severity := .medium,
       message := "Low average rating: " ++ ratToFixed 2 analytics.averageRating ++ "/5",
       metric := some "averageRating", value := some analytics.averageRating }]
   else []) ++
  (if analytics.userSentiment.negative > 30 then
    [{ severity := .medium,
       message := "High negative sentiment: " ++ ratToFixed 1 analytics.userSentiment.negative ++ "%",
       metric := some "sentiment", value := some analytics.userSentiment.negative }]
   else []) ++
  (if analytics.responseTimeAnalysis.p95 > 5000 then
    [{ severity := .low,
       message := "Slow response times - P95: " ++
         ratToFixed 1 (analytics.responseTimeAnalysis.p95 / 1000) ++ "s",
       metric := some "responseTime", value := some analytics.responseTimeAnalysis.p95 }]
   else []) ++
  peakHourAlert analytics

/-- The sentence list built by `InsightsService.analyzeTrends` before joining. -/
def trafficTrendPart (analytics : Analytics) : List String :=
  if analytics.dailyTrend.length > 7 then
    let lastWeek := analytics.dailyTrend.drop (analytics.dailyTrend.length - 7)
    let weeklyAvg : ℚ := ((lastWeek.map (fun d => d.count)).sum : Nat) / 7
    let previousWeek := (analytics.dailyTrend.take (analytics.dailyTrend.length - 7)).drop
      (analytics.dailyTrend.length - 14)
    let prevWeeklyAvg : ℚ := ((previousWeek.map (fun d => d.count)).sum : Nat) / 7
    if weeklyAvg > prevWeeklyAvg * (12/10) then
      ["Traffic increased " ++ ratToFixed 0 ((weeklyAvg / prevWeeklyAvg - 1) * 100) ++
        "% this week"]
    else []
  else []

def weekendTrendPart (analytics : Analytics) : List String :=
  let weekendTraffic := ((analytics.hourlyDistribution.take 8).map (fun h => h.count)).sum
  let weekdayTraffic :=
    (((analytics.hourlyDistribution.take 20).drop 8).map (fun h => h.count)).sum
  if (weekendTraffic : ℚ) > (weekdayTraffic : ℚ) * (3/10) then
    ["Significant weekend activity detected"]
  else []

def topCategoriesTrendPart (analytics : Analytics) : List String :=
  if analytics.topCategories.length ≥ 2 then
    let topTwo := analytics.topCategories.take 2
    ["Top categories: " ++ String.intercalate ", "
      (topTwo.map (fun c => c.category ++ " (" ++ ratToFixed 0 c.percentage ++ "%)"))]
  else []

def analyzeTrendsList (analytics : Analytics) : List String :=
  trafficTrendPart analytics ++ weekendTrendPart analytics ++ topCategoriesTrendPart analytics

/-- `InsightsService.analyzeTrends`: `trends.join('. ') || <fixed sentence>`. -/
def analyzeTrends (analytics : Analytics) : String :=
  let joined := String.intercalate ". " (analyzeTrendsList analytics)
  if joined = "" then "No significant trends detected in the current period." else joined

inductive Urgency where
  | low
  | medium
  | high
deriving DecidableEq

inductive MessageSentiment where
  | positive
  | neutral
  | negative
deriving DecidableEq

inductive SatisfactionTrend where
  | improving
  | declining
  | stable
deriving DecidableEq

inductive EndedBy where
  | user
  | bot
  | timeout
deriving DecidableEq

inductive Resolution where
  | resolved
  | unresolved
  | abandoned
deriving DecidableEq

inductive FinalSentiment where
  | satisfied
  | neutral
  | frustrated
deriving DecidableEq

inductive SuggCategory where
  | knowledge
  | response
  | flow
  | clarification
deriving DecidableEq

inductive SuggPriority where
  | high
  | medium
  | low
deriving DecidableEq

inductive ProblemSeverity where
  | low
  | medium
  | high
deriving DecidableEq

structure RequestAnalysis where
  originalMessage : String := ""
  intent : String := ""
  category : String := ""
  urgency : Urgency := .low
  sentiment : MessageSentiment := .neutral
  clarity : ℚ := 0
  needsClarification : Bool := false
deriving DecidableEq

structure FlowAnalysis where
  totalMessages : Nat := 0
  userMessages : Nat := 0
  botMessages : Nat := 0
  topicChanges : Nat := 0
  userSatisfactionTrend : SatisfactionTrend := .stable
  keyTopics : List String := []
  conversationQuality : ℚ := 0
  misunderstandings : List String := []
deriving DecidableEq

structure EndingAnalysis where
  endedBy : EndedBy := .user
  resolution : Resolution := .resolved
  finalSentiment : FinalSentiment := .neutral
  lastUserMessage : Option String := none
  reasonForEnding : String := ""
  followUpNeeded : Bool := false
deriving DecidableEq

structure ImprovementSuggestion where
  category : SuggCategory
  issue : String
  suggestion : String
  priority : SuggPriority
  examples : List String
deriving DecidableEq

structure ProblemType where
  type : String := ""
  description : String := ""
  frequency : Nat := 0
  severity : ProblemSeverity := .low
  examples : List String := []
deriving DecidableEq

structure ConversationAnalysis where
  sessionId : String := ""
  firstUserRequest : RequestAnalysis := {}
  conversationFlow : FlowAnalysis := {}
  endingAnalysis : EndingAnalysis := {}
  improvementSuggestions : List ImprovementSuggestion := []
  problemTypes : List ProblemType := []
deriving DecidableEq

structure ConversationPattern where
  pattern : String
  frequency : Nat
  averageQuality : ℚ
  commonIssues : List String
deriving DecidableEq

def SatisfactionTrend.toStr : SatisfactionTrend → String
  | .improving => "improving"
  | .declining => "declining"
  | .stable => "stable"

def SuggCategory.toStr : SuggCategory → String
  | .knowledge => "knowledge"
  | .response => "response"
  | .flow => "flow"
  | .clarification => "clarification"

/-- The flow-pattern key of `OpenAIAnalysisService.aggregateAnalyses`:
`` `${a.conversationFlow.userSatisfactionTrend}_${a.conversationFlow.topicChanges}topics` ``. -/
def flowPatternKey (a : ConversationAnalysis) : String :=
  a.conversationFlow.userSatisfactionTrend.toStr ++ "_" ++
    toString a.conversationFlow.topicChanges ++ "topics"

/-- One step of the flow-pattern fold: fetch the stored pattern (or the zero-initialised
default), bump the frequency, update the naive running average, accumulate issues. -/
def stepFlowPattern (m : List ConversationPattern) (a : ConversationAnalysis) :
    List ConversationPattern :=
  let key := flowPatternKey a
  let existing := (m.find? (fun p => p.pattern == key)).getD ⟨key, 0, 0, []⟩
  let updated : ConversationPattern :=
    { pattern := key, frequency := existing.frequency + 1,
      averageQuality := (existing.averageQuality + a.conversationFlow.conversationQuality) / 2,
      commonIssues := existing.commonIssues ++ a.conversationFlow.misunderstandings }
  if m.any (fun p => p.pattern == key) then
    m.map (fun p => if p.pattern == key then updated else p)
  else m ++ [updated]

/-- The flow-pattern table (`flowPatterns` map) of `aggregateAnalyses`, in
key-insertion order. -/
def flowPatternsTable (analyses : List ConversationAnalysis) : List ConversationPattern :=
  analyses.foldl stepFlowPattern []

/-- `conversationPatterns` of `aggregateAnalyses`: sort by frequency descending, top 10. -/
def conversationPatterns (analyses : List ConversationAnalysis) : List ConversationPattern :=
  ((flowPatternsTable analyses).insertionSort (fun a b => b.frequency ≤ a.frequency)).take 10

/-- JS `Array.from(new Set(xs))`: deduplicate keeping first occurrences. -/
def dedupKeepFirst (xs : List String) : List String :=
  xs.foldl (fun acc x => if acc.contains x then acc else acc ++ [x]) []

/-- The improvement dedup key of `aggregateAnalyses`:
`` `${suggestion.category}-${suggestion.issue.substring(0, 50)}` `` — the category in
full and only the first 50 characters of the issue. -/
def suggKey (s : ImprovementSuggestion) : String :=
  s.category.toStr ++ "-" ++ s.issue.take 50

/-- One improvement insertion: first occurrence seeds `(suggestion, 1)`, later
occurrences bump the counter and merge examples into a deduplicated set capped at 3. -/
def addSuggestion (m : List (String × ImprovementSuggestion × Nat))
    (s : ImprovementSuggestion) : List (String × ImprovementSuggestion × Nat) :=
  let key := suggKey s
  if m.any (fun e => e.1 == key) then
    m.map (fun e =>
      if e.1 == key then
        (e.1, { e.2.1 with examples := (dedupKeepFirst (e.2.1.examples ++ s.examples)).take 3 },
          e.2.2 + 1)
      else e)
  else m ++ [(key, s, 1)]

/-- The `improvementMap` of `aggregateAnalyses`, in key-insertion order. -/
def improvementMapOf (analyses : List ConversationAnalysis) :
    List (String × ImprovementSuggestion × Nat) :=
  analyses.foldl (fun m a => a.improvementSuggestions.foldl addSuggestion m) []

def priorityOrder : SuggPriority → Nat
  | .high => 0
  | .medium => 1
  | .low => 2

/-- The comparator of `topImprovements`: priority rank ascending (high first),
then frequency descending. -/
def suggRankLe (x y : ImprovementSuggestion × Nat) : Prop :=
  priorityOrder x.1.priority < priorityOrder y.1.priority ∨
    (priorityOrder x.1.priority = priorityOrder y.1.priority ∧ y.2 ≤ x.2)

instance : DecidableRel suggRankLe := fun x y => by
  unfold suggRankLe; infer_instance

instance : IsTotal (ImprovementSuggestion × Nat) suggRankLe where
  total x y := by
    unfold suggRankLe
    rcases Nat.lt_trichotomy (priorityOrder x.1.priority) (priorityOrder y.1.priority) with h | h | h
    · exact Or.inl (Or.inl h)
    · rcases Nat.le_total y.2 x.2 with h2 | h2
      · exact Or.inl (Or.inr ⟨h, h2⟩)
      · exact Or.inr (Or.inr ⟨h.symm, h2⟩)
    · exact Or.inr (Or.inl h)

instance : IsTrans (ImprovementSuggestion × Nat) suggRankLe where
  trans x y z hxy hyz := by
    unfold suggRankLe at *
    rcases hxy with h1 | ⟨h1, h1f⟩
    · rcases hyz with h2 | ⟨h2, _⟩
      · exact Or.inl (h1.trans h2)
      · exact Or.inl (h2 ▸ h1)
    · rcases hyz with h2 | ⟨h2, h2f⟩
      · exact Or.inl (h1 ▸ h2)
      · exact Or.inr ⟨h1.trans h2, h2f.trans h1f⟩

/-- `topImprovements` of `aggregateAnalyses`: rank the map values, keep 10, drop the
frequency bookkeeping. -/
def topImprovements (analyses : List ConversationAnalysis) : List ImprovementSuggestion :=
  ((((improvementMapOf analyses).map (fun e => e.2)).insertionSort suggRankLe).take 10).map
    (fun e => e.1)

lemma ratePct_bounds {c n : Nat} (h : c ≤ n) : 0 ≤ (c : ℚ) / n * 100 ∧ (c : ℚ) / n * 100 ≤ 100 := by
  rcases Nat.eq_zero_or_pos n with hn | hn
  · subst hn
    interval_cases c
    norm_num
  · have hn' : (0 : ℚ) < n := by exact_mod_cast hn
    have hc : (c : ℚ) / n ≤ 1 := (div_le_one hn').mpr (by exact_mod_cast h)
    constructor
    · positivity
    · nlinarith

/-- C2: `resolvedRate` and `errorRate` are the strict-true counts over the full log
count times 100, both lie in `[0, 100]`, and both are 0 on the empty collection. -/
theorem resolvedRate_errorRate_spec (logs : List ChatLog) :
    (logs ≠ [] →
      calculateResolvedRate logs =
        ((logs.filter (fun log => log.resolved == some true)).length : ℚ) / logs.length * 100 ∧
      calculateErrorRate logs =
        ((logs.filter (fun log => log.error == some true)).length : ℚ) / logs.length * 100) ∧
    (0 ≤ calculateResolvedRate logs ∧ calculateResolvedRate logs ≤ 100) ∧
    (0 ≤ calculateErrorRate logs ∧ calculateErrorRate logs ≤ 100) ∧
    (logs = [] → calculateResolvedRate logs = 0 ∧ calculateErrorRate logs = 0) := by
  refine ⟨?_, ?_, ?_, ?_⟩
  · intro h
    have hn : ¬ logs.length = 0 := fun h0 => h (List.length_eq_zero.mp h0)
    constructor
    · simp [calculateResolvedRate, hn]
    · simp [calculateErrorRate, hn]
  · by_cases hn : logs.length = 0
    · simp [calculateResolvedRate, hn]
    · simpa [calculateResolvedRate, hn] using ratePct_bounds (List.length_filter_le _ logs)
  · by_cases hn : logs.length = 0
    · simp [calculateErrorRate, hn]
    · simpa [calculateErrorRate, hn] using ratePct_bounds (List.length_filter_le _ logs)
  · rintro rfl
    constructor <;> rfl

theorem resolvedRate_errorRate_spec_witness :
    calculateResolvedRate [{ resolved := some true }, { resolved := some false }] =
      ((([{ resolved := some true }, { resolved := some false }] :
        List ChatLog).filter (fun log => log.resolved == some true)).length : ℚ) /
        ([{ resolved := some true }, { resolved := some false }] : List ChatLog).length * 100 ∧
    calculateErrorRate [{ resolved := some true }, { resolved := some false }] =
      ((([{ resolved := some true }, { resolved := some false }] :
        List ChatLog).filter (fun log => log.error == some true)).length : ℚ) /
        ([{ resolved := some true }, { resolved := some false }] : List ChatLog).length * 100 :=
  (resolvedRate_errorRate_spec [{ resolved := some true }, { resolved := some false }]).1
    (by simp)

/-- C9: in each breakdown (top categories, platform distribution, app versions) every
entry's percentage is its count over the FULL input log count times 100 — the same
denominator for all siblings, including logs whose grouping field is absent — and
consequently the listed percentages need not sum to 100. -/
theorem breakdown_percentage_denominators :
    (∀ logs : List ChatLog,
      (∀ e ∈ getTopCategories logs, e.percentage = (e.count : ℚ) / logs.length * 100) ∧
      (∀ e ∈ getPlatformDistribution logs, e.percentage = (e.count : ℚ) / logs.length * 100) ∧
      (∀ e ∈ getAppVersions logs, e.percentage = (e.count : ℚ) / logs.length * 100)) ∧
    (∃ logs : List ChatLog, getTopCategories logs ≠ [] ∧
      ((getTopCategories logs).map (fun e => e.percentage)).sum ≠ 100) := by
  constructor
  · intro logs
    refine ⟨?_, ?_, ?_⟩
    · intro e he
      simp only [getTopCategories] at he
      have h2 := (List.mem_insertionSort _).mp (List.mem_of_mem_take he)
      obtain ⟨p, -, rfl⟩ := List.mem_map.mp h2
      rfl
    · intro e he
      simp only [getPlatformDistribution] at he
      have h2 := (List.mem_insertionSort _).mp he
      obtain ⟨p, -, rfl⟩ := List.mem_map.mp h2
      rfl
    · intro e he
      simp only [getAppVersions] at he
      have h2 := (List.mem_insertionSort _).mp (List.mem_of_mem_take he)
      obtain ⟨p, -, rfl⟩ := List.mem_map.mp h2
      rfl
  · refine ⟨[{ category := some "a" }, {}], ?_, ?_⟩ <;>
      norm_num [getTopCategories, countByKey, bumpCount, setAssoc, lookupD, truthyStr,
        List.insertionSort, List.orderedInsert]

theorem breakdown_percentage_denominators_witness :
    (⟨"a", 2, (2 : ℚ) / 2 * 100⟩ : CategoryCount).percentage =
      ((⟨"a", 2, (2 : ℚ) / 2 * 100⟩ : CategoryCount).count : ℚ) /
        ([{ category := some "a" }, { category := some "a" }] : List ChatLog).length * 100 :=
  (breakdown_percentage_denominators.1
    [{ category := some "a" }, { category := some "a" }]).1
    ⟨"a", 2, (2 : ℚ) / 2 * 100⟩
    (by norm_num [getTopCategories, countByKey, bumpCount, setAssoc, lookupD, truthyStr,
      List.insertionSort, List.orderedInsert])

lemma sortedSample_eq (rt : List ℚ) (l : List ℚ) (hperm : l.Perm rt)
    (hsort : l.Sorted (· ≤ ·)) : l = rt.insertionSort (· ≤ ·) :=
  List.eq_of_perm_of_sorted (hperm.trans (List.perm_insertionSort _ _).symm) hsort
    (List.sorted_insertionSort _ _)

/-- C1: on a non-empty sample collection the response-time stats are the values of the
ascending-sorted samples at indices `⌊n/2⌋`, `⌊n*0.95⌋`, `⌊n*0.99⌋`, each of which is
in bounds (so clamping is the identity); on an empty collection all stats are 0. -/
theorem responseTime_percentiles (logs : List ChatLog) (l : List ℚ)
    (hperm : l.Perm (collectResponseTimes logs)) (hsort : l.Sorted (· ≤ ·)) :
    (collectResponseTimes logs = [] → analyzeResponseTimes logs = ⟨0, 0, 0, 0⟩) ∧
    (collectResponseTimes logs ≠ [] →
      (collectResponseTimes logs).length / 2 < (collectResponseTimes logs).length ∧
      (collectResponseTimes logs).length * 95 / 100 < (collectResponseTimes logs).length ∧
      (collectResponseTimes logs).length * 99 / 100 < (collectResponseTimes logs).length ∧
      (analyzeResponseTimes logs).median = l.getD ((collectResponseTimes logs).length / 2) 0 ∧
      (analyzeResponseTimes logs).p95 =
        l.getD ((collectResponseTimes logs).length * 95 / 100) 0 ∧
      (analyzeResponseTimes logs).p99 =
        l.getD ((collectResponseTimes logs).length * 99 / 100) 0) := by
  have hl : l = (collectResponseTimes logs).insertionSort (· ≤ ·) :=
    sortedSample_eq _ _ hperm hsort
  constructor
  · intro h
    simp [analyzeResponseTimes, h]
  · intro h
    have hn : (collectResponseTimes logs).length ≠ 0 := by
      simpa [List.length_eq_zero] using h
    have hpos : 0 < (collectResponseTimes logs).length := Nat.pos_of_ne_zero hn
    refine ⟨by omega, by omega, by omega, ?_, ?_, ?_⟩ <;>
      simp [analyzeResponseTimes, hn, hl]

theorem responseTime_percentiles_witness :
    ([(1 : ℚ), 2, 3] : List ℚ).Perm
        (collectResponseTimes [{ responseTime := some 3 }, { responseTime := some 1 },
          { responseTime := some 2 }]) ∧
    ([(1 : ℚ), 2, 3] : List ℚ).Sorted (· ≤ ·) ∧
    (analyzeResponseTimes [{ responseTime := some 3 }, { responseTime := some 1 },
        { responseTime := some 2 }]).median =
      ([(1 : ℚ), 2, 3] : List ℚ).getD
        ((collectResponseTimes [{ responseTime := some 3 }, { responseTime := some 1 },
          { responseTime := some 2 }]).length / 2) 0 := by
  have hperm : ([(1 : ℚ), 2, 3] : List ℚ).Perm
      (collectResponseTimes [{ responseTime := some 3 }, { responseTime := some 1 },
        { responseTime := some 2 }]) := by decide
  have hsort : ([(1 : ℚ), 2, 3] : List ℚ).Sorted (· ≤ ·) := by decide
  exact ⟨hperm, hsort,
    ((responseTime_percentiles _ _ hperm hsort).2 (by decide)).2.2.2.1⟩

lemma sorted_getD_mono {l : List ℚ} (hs : l.Sorted (· ≤ ·)) {i j : Nat} (hij : i ≤ j)
    (hj : j < l.length) : l.getD i 0 ≤ l.getD j 0 := by
  have hi : i < l.length := lt_of_le_of_lt hij hj
  rw [List.getD_eq_get _ _ hi, List.getD_eq_get _ _ hj]
  exact hs.rel_get_of_le (by exact_mod_cast hij)

/-- C7: on any non-empty sample collection, `median ≤ p95 ≤ p99`, and all three stats
coincide when every sampled value is identical. -/
theorem responseTime_percentile_ordering (logs : List ChatLog)
    (h : collectResponseTimes logs ≠ []) :
    ((analyzeResponseTimes logs).median ≤ (analyzeResponseTimes logs).p95 ∧
      (analyzeResponseTimes logs).p95 ≤ (analyzeResponseTimes logs).p99) ∧
    (∀ c : ℚ, (∀ x ∈ collectResponseTimes logs, x = c) →
      (analyzeResponseTimes logs).median = c ∧ (analyzeResponseTimes logs).p95 = c ∧
      (analyzeResponseTimes logs).p99 = c) := by
  have hn : (collectResponseTimes logs).length ≠ 0 := by
    simpa [List.length_eq_zero] using h
  have hpos : 0 < (collectResponseTimes logs).length := Nat.pos_of_ne_zero hn
  have hsort : ((collectResponseTimes logs).insertionSort (· ≤ ·)).Sorted (· ≤ ·) :=
    List.sorted_insertionSort _ _
  have hlen : ((collectResponseTimes logs).insertionSort (· ≤ ·)).length =
      (collectResponseTimes logs).length :=
    (List.perm_insertionSort _ _).length_eq
  constructor
  · constructor
    · simp only [analyzeResponseTimes, hn, if_false]
      exact sorted_getD_mono hsort (by omega) (by omega)
    · simp only [analyzeResponseTimes, hn, if_false]
      exact sorted_getD_mono hsort (by omega) (by omega)
  · intro c hc
    have hc' : ∀ x ∈ (collectResponseTimes logs).insertionSort (· ≤ ·), x = c := by
      intro x hx
      exact hc x ((List.mem_insertionSort _).mp hx)
    have hget : ∀ i, i < (collectResponseTimes logs).length →
        ((collectResponseTimes logs).insertionSort (· ≤ ·)).getD i 0 = c := by
      intro i hi
      have hi' : i < ((collectResponseTimes logs).insertionSort (· ≤ ·)).length := by omega
      rw [List.getD_eq_get _ _ hi']
      exact hc' _ (List.get_mem _ _ _)
    refine ⟨?_, ?_, ?_⟩ <;>
      · simp only [analyzeResponseTimes, hn, if_false]
        exact hget _ (by omega)

theorem responseTime_percentile_ordering_witness :
    ((analyzeResponseTimes [{ responseTime := some 5 }, { responseTime := some 5 }]).median ≤
        (analyzeResponseTimes [{ responseTime := some 5 }, { responseTime := some 5 }]).p95 ∧
      (analyzeResponseTimes [{ responseTime := some 5 }, { responseTime := some 5 }]).p95 ≤
        (analyzeResponseTimes [{ responseTime := some 5 }, { responseTime := some 5 }]).p99) ∧
    (analyzeResponseTimes [{ responseTime := some 5 }, { responseTime := some 5 }]).median = 5 ∧
    (analyzeResponseTimes [{ responseTime := some 5 }, { responseTime := some 5 }]).p95 = 5 ∧
    (analyzeResponseTimes [{ responseTime := some 5 }, { responseTime := some 5 }]).p99 = 5 :=
  ⟨(responseTime_percentile_ordering _ (by decide)).1,
    (responseTime_percentile_ordering _ (by decide)).2 5 (by decide)⟩


lemma lookupD_setAssoc (m : List (Nat × Nat)) (k k' v d : Nat) :
    lookupD (setAssoc m k v) k' d = if k' = k then v else lookupD m k' d := by
  induction m with
  | nil =>
    by_cases h : k' = k
    · simp [setAssoc, lookupD, h]
    · have h2 : ¬ (k = k') := fun hh => h hh.symm
      simp [setAssoc, lookupD, h, h2]
  | cons p rest ih =>
    by_cases hpk : p.1 = k
    · by_cases h : k' = k
      · simp [setAssoc, lookupD, hpk, h]
      · have h2 : ¬ (k = k') := fun hh => h hh.symm
        have h3 : ¬ (p.1 = k') := by rw [hpk]; exact h2
        simp [setAssoc, lookupD, hpk, h, h2, h3]
    · by_cases hpq : p.1 = k'
      · have h : ¬ (k' = k) := fun hh => hpk (hpq.trans hh)
        simp [setAssoc, lookupD, hpk, hpq, h]
      · by_cases h : k' = k <;> simpa [setAssoc, lookupD, hpk, hpq, h] using ih

lemma lookupD_bumpCount (m : List (Nat × Nat)) (k k' : Nat) :
    lookupD (bumpCount m k) k' 0 = lookupD m k' 0 + if k' = k then 1 else 0 := by
  unfold bumpCount
  rw [lookupD_setAssoc]
  by_cases h : k' = k <;> simp [h]

lemma sum_range_update (n k : Nat) (hk : k < n) (g : Nat → Nat) (v : Nat) :
    ((List.range n).map (fun h => if h = k then v else g h)).sum + g k =
      ((List.range n).map g).sum + v := by
  induction n with
  | zero => omega
  | succ n ih =>
    rw [List.range_succ, List.map_append, List.map_append, List.sum_append, List.sum_append]
    by_cases h : k = n
    · subst h
      have heq : (List.range k).map (fun h => if h = k then v else g h) =
          (List.range k).map g :=
        List.map_congr_left (fun a ha => by simp [Nat.ne_of_lt (List.mem_range.mp ha)])
      rw [heq]
      simp only [List.map_cons, List.map_nil, List.sum_cons, List.sum_nil, if_true]
      omega
    · have hk' : k < n := by omega
      have hnk : ¬ (n = k) := fun hh => h hh.symm
      have := ih hk'
      simp only [List.map_cons, List.map_nil, List.sum_cons, List.sum_nil, if_neg hnk]
      omega

lemma hourly_fold_sum (getHours : Nat → Fin 24) (logs : List ChatLog)
    (m : List (Nat × Nat)) :
    ((List.range 24).map (fun h =>
        lookupD (logs.foldl (fun m log =>
          match log.timestamp with
          | some t => bumpCount m (getHours t).val
          | none => m) m) h 0)).sum =
      ((List.range 24).map (fun h => lookupD m h 0)).sum +
        (logs.filter (fun log => log.timestamp.isSome)).length := by
  induction logs generalizing m with
  | nil => simp
  | cons log rest ih =>
    match hts : log.timestamp with
    | none => simp [List.foldl_cons, hts, ih, List.filter_cons]
    | some t =>
      have hstep : ((List.range 24).map (fun h =>
          lookupD (bumpCount m (getHours t).val) h 0)).sum =
          ((List.range 24).map (fun h => lookupD m h 0)).sum + 1 := by
        have hpt : ((List.range 24).map (fun h => lookupD (bumpCount m (getHours t).val) h 0)) =
            ((List.range 24).map (fun h =>
              if h = (getHours t).val then lookupD m (getHours t).val 0 + 1
              else lookupD m h 0)) := by
          apply List.map_congr_left
          intro a _
          rw [lookupD_bumpCount]
          by_cases h : a = (getHours t).val <;> simp [h]
        have := sum_range_update 24 (getHours t).val (getHours t).isLt
          (fun h => lookupD m h 0) (lookupD m (getHours t).val 0 + 1)
        rw [hpt]
        omega
      simp only [List.foldl_cons, hts, List.filter_cons]
      rw [ih, hstep]
      simp only [Option.isSome_some, if_pos, List.length_cons, cond_true]
      omega

/-- C3: the hourly distribution has exactly the hours 0..23 in ascending order (hence
24 entries), every count is nonnegative, and the counts sum to the number of logs
that have a timestamp.  `getHours` is JS `Date.prototype.getHours`, whose
codomain is 0..23. -/
theorem hourlyDistribution_spec (getHours : Nat → Fin 24) (logs : List ChatLog) :
    ((getHourlyDistribution getHours logs).map (fun e => e.hour) = List.range 24) ∧
    (getHourlyDistribution getHours logs).length = 24 ∧
    (∀ e ∈ getHourlyDistribution getHours logs, 0 ≤ e.count) ∧
    ((getHourlyDistribution getHours logs).map (fun e => e.count)).sum =
      (logs.filter (fun log => log.timestamp.isSome)).length := by
  refine ⟨rfl, rfl, fun e _ => Nat.zero_le _, ?_⟩
  have := hourly_fold_sum getHours logs []
  simp only [getHourlyDistribution, List.map_map]
  simpa [lookupD] using this

theorem hourlyDistribution_spec_witness :
    (0 : Nat) ≤ (HourlyCount.mk 0 1).count ∧
    ((getHourlyDistribution (fun t => ⟨t / 3600000 % 24, by omega⟩)
        [{ timestamp := some 0 }]).map (fun e => e.count)).sum =
      (([{ timestamp := some 0 }] : List ChatLog).filter
        (fun log => log.timestamp.isSome)).length :=
  ⟨(hourlyDistribution_spec (fun t => ⟨t / 3600000 % 24, by omega⟩)
      [{ timestamp := some 0 }]).2.2.1 (HourlyCount.mk 0 1) (by decide),
    (hourlyDistribution_spec (fun t => ⟨t / 3600000 % 24, by omega⟩)
      [{ timestamp := some 0 }]).2.2.2⟩

lemma peakHourAlert_errorRate (a : Analytics) (x : ℚ) :
    peakHourAlert { a with errorRate := x } = peakHourAlert a := rfl

/-- C6: raising `errorRate` past 10% while holding every other field fixed produces the
high-severity error alert, keeps producing it at every larger rate, and leaves the
non-error alerts of the list untouched. -/
theorem errorAlert_monotone (a : Analytics) (r r' : ℚ) (hr : r > 10) (hrr : r ≤ r') :
    (∃ al ∈ generateAlerts { a with errorRate := r },
      al.metric = some "errorRate" ∧ al.severity = .high) ∧
    (∃ al ∈ generateAlerts { a with errorRate := r' },
      al.metric = some "errorRate" ∧ al.severity = .high) ∧
    (generateAlerts { a with errorRate := r' }).filter
        (fun al => !(al.metric == some "errorRate")) =
      (generateAlerts { a with errorRate := r }).filter
        (fun al => !(al.metric == some "errorRate")) := by
  have hr' : r' > 10 := lt_of_lt_of_le hr hrr
  have hmem : ∀ x : ℚ, x > 10 → ∃ al ∈ generateAlerts { a with errorRate := x },
      al.metric = some "errorRate" ∧ al.severity = .high := by
    intro x hx
    refine ⟨⟨.high, "High error rate detected: " ++ ratToFixed 1 x ++ "%",
      some "errorRate", some x⟩, ?_, rfl, rfl⟩
    simp [generateAlerts, hx]
  refine ⟨hmem r hr, hmem r' hr', ?_⟩
  simp [generateAlerts, List.filter_append, apply_ite (List.filter _), hr, hr',
    peakHourAlert_errorRate]

theorem errorAlert_monotone_witness :
    (∃ al ∈ generateAlerts { errorRate := 11 },
      al.metric = some "errorRate" ∧ al.severity = .high) ∧
    (∃ al ∈ generateAlerts { errorRate := 12 },
      al.metric = some "errorRate" ∧ al.severity = .high) ∧
    (generateAlerts { errorRate := 12 }).filter
        (fun al => !(al.metric == some "errorRate")) =
      (generateAlerts { errorRate := 11 }).filter
        (fun al => !(al.metric == some "errorRate")) :=
  errorAlert_monotone {} 11 12 (by norm_num) (by norm_num)

/-- C5 counterexample: with a previous Analytics supplied and the average session
duration doubled (far above the +5% band), the "Avg Session Duration" key metric
still carries no percent-change string and a fixed 'stable' trend. -/
theorem keyMetrics_sessionDuration_counterexample :
    ((generateKeyMetrics { averageSessionDuration := 120 }
        (some { averageSessionDuration := 60 })).getD 5 ⟨"", .num 0, none, none⟩).name =
      "Avg Session Duration" ∧
    ((generateKeyMetrics { averageSessionDuration := 120 }
        (some { averageSessionDuration := 60 })).getD 5 ⟨"", .num 0, none, none⟩).change =
      none ∧
    ((generateKeyMetrics { averageSessionDuration := 120 }
        (some { averageSessionDuration := 60 })).getD 5 ⟨"", .num 0, none, none⟩).trend =
      some .stable ∧
    (120 : ℚ) > 60 * (1 + 1/20) :=
  ⟨rfl, rfl, rfl, by norm_num⟩

/-- C5 amended: when a previous Analytics is supplied, the first five key metrics
(total conversations, active users, resolution rate, average rating, error rate)
each get a percent-change string (`"+100%"` when the previous value is 0, otherwise
the signed fixed-1 percentage) and a trend ('up' iff current > previous*1.05,
'stable' iff previous*0.95 ≤ current ≤ previous*1.05, 'down' otherwise); the sixth
metric (average session duration) never gets a change string and its trend is the
constant 'stable'. -/
theorem keyMetrics_change_trend_amended (a p : Analytics) :
    ((generateKeyMetrics a (some p)).map (fun m => m.change) =
      [some (calculateChange a.totalConversations p.totalConversations),
       some (calculateChange a.uniqueUsers p.uniqueUsers),
       some (calculateChange a.resolvedRate p.resolvedRate),
       some (calculateChange a.averageRating p.averageRating),
       some (calculateChange a.errorRate p.errorRate),
       none]) ∧
    ((generateKeyMetrics a (some p)).map (fun m => m.trend) =
      [some (getTrend a.totalConversations p.totalConversations),
       some (getTrend a.uniqueUsers p.uniqueUsers),
       some (getTrend a.resolvedRate p.resolvedRate),
       some (getTrend a.averageRating p.averageRating),
       some (getTrend a.errorRate p.errorRate),
       some .stable]) ∧
    (∀ c q : ℚ, q = 0 → calculateChange c q = "+100%") ∧
    (∀ c q : ℚ, q ≠ 0 → calculateChange c q =
      (if (c - q) / q * 100 ≥ 0 then "+" else "") ++ ratToFixed 1 ((c - q) / q * 100) ++ "%") ∧
    (∀ c q : ℚ, (getTrend c q = .up ↔ c > q * (1 + 1/20)) ∧
      (getTrend c q = .stable ↔ (c ≤ q * (1 + 1/20) ∧ q * (1 - 1/20) ≤ c)) ∧
      (getTrend c q = .down ↔ (c ≤ q * (1 + 1/20) ∧ c < q * (1 - 1/20)))) := by
  refine ⟨rfl, rfl, ?_, ?_, ?_⟩
  · intro c q h
    simp [calculateChange, h]
  · intro c q h
    simp [calculateChange, h]
  · intro c q
    unfold getTrend
    split_ifs with h1 h2
    · exact ⟨⟨fun _ => h1, fun _ => rfl⟩,
        ⟨fun h => absurd h (by simp), fun hh => absurd h1 (not_lt.mpr hh.1)⟩,
        ⟨fun h => absurd h (by simp), fun hh => absurd h1 (not_lt.mpr hh.1)⟩⟩
    · exact ⟨⟨fun h => absurd h (by simp), fun hgt => absurd hgt h1⟩,
        ⟨fun h => absurd h (by simp), fun hh => absurd h2 (not_lt.mpr hh.2)⟩,
        ⟨fun _ => ⟨not_lt.mp h1, h2⟩, fun _ => rfl⟩⟩
    · exact ⟨⟨fun h => absurd h (by simp), fun hgt => absurd hgt h1⟩,
        ⟨fun _ => ⟨not_lt.mp h1, not_lt.mp h2⟩, fun _ => rfl⟩,
        ⟨fun h => absurd h (by simp), fun hh => absurd hh.2 h2⟩⟩

theorem keyMetrics_change_trend_amended_witness :
    calculateChange 100 0 = "+100%" :=
  (keyMetrics_change_trend_amended {} {}).2.2.1 100 0 rfl

/-- C8 counterexample: with exactly 8 daily-trend entries (counts 7,2,2,2,2,2,2,2) the
code emits the traffic-increase sentence (its prior value is sum-of-1-entry / 7 = 1),
although the recent mean (2) does NOT exceed the mean of the preceding entries (7) by
more than 20%. -/
theorem trendProse_counterexample :
    let dt : List DailyCount :=
      [⟨"2025-01-01", 7, 0, 0⟩, ⟨"2025-01-02", 2, 0, 0⟩, ⟨"2025-01-03", 2, 0, 0⟩,
       ⟨"2025-01-04", 2, 0, 0⟩, ⟨"2025-01-05", 2, 0, 0⟩, ⟨"2025-01-06", 2, 0, 0⟩,
       ⟨"2025-01-07", 2, 0, 0⟩, ⟨"2025-01-08", 2, 0, 0⟩]
    trafficTrendPart { dailyTrend := dt } ≠ [] ∧
    ¬ ((((dt.drop (dt.length - 7)).map (fun d => d.count)).sum : ℚ) / 7 >
      ((((dt.take (dt.length - 7)).drop (dt.length - 14)).map (fun d => d.count)).sum : ℚ) /
        (((dt.take (dt.length - 7)).drop (dt.length - 14)).length : ℚ) * (12/10)) := by
  constructor
  · norm_num [trafficTrendPart]
  · norm_num

/-- C8 amended: the traffic-increase sentence is emitted iff the daily trend has more
than 7 entries and the mean of the last 7 counts exceeds (sum of the up-to-7 preceding
counts) / 7 — a true mean of the preceding entries only when at least 14 entries
exist — by more than 20%; when no trend sentence qualifies the output is the fixed
no-significant-trends sentence. -/
theorem trendProse_amended (a : Analytics) :
    (trafficTrendPart a ≠ [] ↔
      (a.dailyTrend.length > 7 ∧
        ((((a.dailyTrend.drop (a.dailyTrend.length - 7)).map
            (fun d => d.count)).sum : ℕ) : ℚ) / 7 >
        (((((a.dailyTrend.take (a.dailyTrend.length - 7)).drop
            (a.dailyTrend.length - 14)).map (fun d => d.count)).sum : ℕ) : ℚ) / 7 * (12/10))) ∧
    (14 ≤ a.dailyTrend.length →
      ((a.dailyTrend.take (a.dailyTrend.length - 7)).drop
        (a.dailyTrend.length - 14)).length = 7) ∧
    (analyzeTrendsList a = [] →
      analyzeTrends a = "No significant trends detected in the current period.") := by
  refine ⟨?_, ?_, ?_⟩
  · simp only [trafficTrendPart]
    by_cases h1 : a.dailyTrend.length > 7
    · rw [if_pos h1]
      by_cases h2 :
          ((((a.dailyTrend.drop (a.dailyTrend.length - 7)).map
            (fun d => d.count)).sum : ℕ) : ℚ) / 7 >
          (((((a.dailyTrend.take (a.dailyTrend.length - 7)).drop
            (a.dailyTrend.length - 14)).map (fun d => d.count)).sum : ℕ) : ℚ) / 7 * (12/10)
      · rw [if_pos h2]
        exact ⟨fun _ => ⟨h1, h2⟩, fun _ => by simp⟩
      · rw [if_neg h2]
        exact ⟨fun hcon => absurd rfl hcon, fun hh => absurd hh.2 h2⟩
    · rw [if_neg h1]
      exact ⟨fun hcon => absurd rfl hcon, fun hh => absurd hh.1 h1⟩
  · intro h
    simp only [List.length_drop, List.length_take]
    omega
  · intro h
    have he : String.intercalate ". " (analyzeTrendsList a) = "" := by rw [h]; rfl
    simp [analyzeTrends, he]

theorem trendProse_amended_witness :
    analyzeTrends {} = "No significant trends detected in the current period." :=
  (trendProse_amended {}).2.2
    (by norm_num [analyzeTrendsList, trafficTrendPart, weekendTrendPart,
      topCategoriesTrendPart])

lemma find?_map_update_ne (m : List ConversationPattern) (key key' : String)
    (upd : ConversationPattern) (hupd : upd.pattern = key') (hne : key' ≠ key) :
    (m.map (fun p => if p.pattern == key' then upd else p)).find?
      (fun p => p.pattern == key) = m.find? (fun p => p.pattern == key) := by
  induction m with
  | nil => rfl
  | cons p rest ih =>
    by_cases hp : p.pattern = key'
    · have h1 : (p.pattern == key') = true := beq_iff_eq.mpr hp
      have h2 : (upd.pattern == key) = false := by simp [hupd, hne]
      have h3 : (p.pattern == key) = false := by simp [hp, hne]
      simp only [List.map_cons, h1, if_true, List.find?_cons, h2, h3]
      exact ih
    · have h1 : (p.pattern == key') = false := by simp [hp]
      simp only [List.map_cons, h1, Bool.false_eq_true, if_false, List.find?_cons]
      by_cases hq : p.pattern = key
      · simp [beq_iff_eq.mpr hq]
      · have h2 : (p.pattern == key) = false := by simp [hq]
        simp only [h2]
        exact ih

lemma find?_map_update_self (m : List ConversationPattern) (key : String)
    (upd : ConversationPattern) (hupd : upd.pattern = key)
    (hany : m.any (fun p => p.pattern == key) = true) :
    (m.map (fun p => if p.pattern == key then upd else p)).find?
      (fun p => p.pattern == key) = some upd := by
  induction m with
  | nil => simp at hany
  | cons p rest ih =>
    by_cases hp : p.pattern = key
    · have h1 : (p.pattern == key) = true := beq_iff_eq.mpr hp
      have h2 : (upd.pattern == key) = true := beq_iff_eq.mpr hupd
      simp only [List.map_cons, h1, if_true, List.find?_cons, h2]
    · have h1 : (p.pattern == key) = false := by simp [hp]
      have hany' : rest.any (fun q => q.pattern == key) = true := by
        rcases List.any_eq_true.mp hany with ⟨x, hx, hpx⟩
        rcases List.mem_cons.mp hx with rfl | hx'
        · rw [h1] at hpx; exact absurd hpx (by simp)
        · exact List.any_eq_true.mpr ⟨x, hx', hpx⟩
      simp only [List.map_cons, h1, Bool.false_eq_true, if_false, List.find?_cons]
      exact ih hany'

lemma find?_stepFlowPattern_ne (m : List ConversationPattern) (a : ConversationAnalysis)
    (key : String) (hne : flowPatternKey a ≠ key) :
    (stepFlowPattern m a).find? (fun p => p.pattern == key) =
      m.find? (fun p => p.pattern == key) := by
  simp only [stepFlowPattern]
  by_cases hany : m.any (fun p => p.pattern == flowPatternKey a) = true
  · rw [if_pos hany]
    exact find?_map_update_ne m key (flowPatternKey a) _ rfl hne
  · rw [if_neg hany, List.find?_append]
    have hb : (flowPatternKey a == key) = false := by simp [hne]
    simp [List.find?_cons, hb]

lemma find?_stepFlowPattern_self (m : List ConversationPattern) (a : ConversationAnalysis) :
    (stepFlowPattern m a).find? (fun p => p.pattern == flowPatternKey a) =
      some { pattern := flowPatternKey a,
             frequency := ((m.find? (fun p => p.pattern == flowPatternKey a)).getD
               ⟨flowPatternKey a, 0, 0, []⟩).frequency + 1,
             averageQuality := (((m.find? (fun p => p.pattern == flowPatternKey a)).getD
               ⟨flowPatternKey a, 0, 0, []⟩).averageQuality +
               a.conversationFlow.conversationQuality) / 2,
             commonIssues := ((m.find? (fun p => p.pattern == flowPatternKey a)).getD
               ⟨flowPatternKey a, 0, 0, []⟩).commonIssues ++
               a.conversationFlow.misunderstandings } := by
  simp only [stepFlowPattern]
  by_cases hany : m.any (fun p => p.pattern == flowPatternKey a) = true
  · rw [if_pos hany]
    exact find?_map_update_self m (flowPatternKey a) _ rfl hany
  · rw [if_neg hany]
    rw [List.find?_append]
    have hfind : m.find? (fun p => p.pattern == flowPatternKey a) = none := by
      rw [List.find?_eq_none]
      intro x hx hpx
      exact hany (List.any_eq_true.mpr ⟨x, hx, hpx⟩)
    rw [hfind]
    simp

lemma find?_foldl_step_ne (analyses : List ConversationAnalysis) (key : String)
    (h : ∀ b ∈ analyses, flowPatternKey b ≠ key) (m : List ConversationPattern) :
    (analyses.foldl stepFlowPattern m).find? (fun p => p.pattern == key) =
      m.find? (fun p => p.pattern == key) := by
  induction analyses generalizing m with
  | nil => rfl
  | cons b rest ih =>
    rw [List.foldl_cons, ih (fun x hx => h x (List.mem_cons_of_mem _ hx))]
    exact find?_stepFlowPattern_ne m b key (h b (List.mem_cons_self _ _))

/-- C10: in the flow-pattern table the running quality average starts at 0 and each
occurrence updates it to `(previous + new) / 2`; hence a pattern occurring in exactly
one analysis reports `averageQuality = conversationQuality / 2`, not the score
itself. -/
theorem flowPattern_runningAverage :
    (∀ (m : List ConversationPattern) (a : ConversationAnalysis),
      (stepFlowPattern m a).find? (fun p => p.pattern == flowPatternKey a) =
        some { pattern := flowPatternKey a,
               frequency := ((m.find? (fun p => p.pattern == flowPatternKey a)).getD
                 ⟨flowPatternKey a, 0, 0, []⟩).frequency + 1,
               averageQuality := (((m.find? (fun p => p.pattern == flowPatternKey a)).getD
                 ⟨flowPatternKey a, 0, 0, []⟩).averageQuality +
                 a.conversationFlow.conversationQuality) / 2,
               commonIssues := ((m.find? (fun p => p.pattern == flowPatternKey a)).getD
                 ⟨flowPatternKey a, 0, 0, []⟩).commonIssues ++
                 a.conversationFlow.misunderstandings }) ∧
    (∀ (pre post : List ConversationAnalysis) (a : ConversationAnalysis),
      (∀ b ∈ pre, flowPatternKey b ≠ flowPatternKey a) →
      (∀ b ∈ post, flowPatternKey b ≠ flowPatternKey a) →
      ∃ p ∈ flowPatternsTable (pre ++ a :: post),
        p.pattern = flowPatternKey a ∧ p.frequency = 1 ∧
        p.averageQuality = a.conversationFlow.conversationQuality / 2 ∧
        (a.conversationFlow.conversationQuality ≠ 0 →
          p.averageQuality ≠ a.conversationFlow.conversationQuality)) := by
  constructor
  · exact fun m a => find?_stepFlowPattern_self m a
  · intro pre post a hpre hpost
    have hM : (pre.foldl stepFlowPattern []).find?
        (fun p => p.pattern == flowPatternKey a) = none := by
      rw [find?_foldl_step_ne pre _ hpre]
      rfl
    have hstep := find?_stepFlowPattern_self (pre.foldl stepFlowPattern []) a
    rw [hM] at hstep
    simp only [Option.getD_none] at hstep
    have hfull : (flowPatternsTable (pre ++ a :: post)).find?
        (fun p => p.pattern == flowPatternKey a) =
        some { pattern := flowPatternKey a, frequency := 1,
               averageQuality := (0 + a.conversationFlow.conversationQuality) / 2,
               commonIssues := [] ++ a.conversationFlow.misunderstandings } := by
      unfold flowPatternsTable
      rw [List.foldl_append, List.foldl_cons]
      rw [find?_foldl_step_ne post _ hpost]
      exact hstep
    refine ⟨_, List.mem_of_find?_eq_some hfull, rfl, rfl, ?_, ?_⟩
    · show (0 + a.conversationFlow.conversationQuality) / 2 = _
      rw [zero_add]
    · intro hq
      show (0 + a.conversationFlow.conversationQuality) / 2 ≠ _
      rw [zero_add]
      intro hcon
      exact hq (by linarith)

theorem flowPattern_runningAverage_witness :
    ∃ p ∈ flowPatternsTable
        ([] ++ ({ conversationFlow := { conversationQuality := 10 } } :
          ConversationAnalysis) :: []),
      p.pattern = flowPatternKey { conversationFlow := { conversationQuality := 10 } } ∧
      p.frequency = 1 ∧
      p.averageQuality =
        ({ conversationFlow := { conversationQuality := 10 } } :
          ConversationAnalysis).conversationFlow.conversationQuality / 2 ∧
      (({ conversationFlow := { conversationQuality := 10 } } :
          ConversationAnalysis).conversationFlow.conversationQuality ≠ 0 →
        p.averageQuality ≠
          ({ conversationFlow := { conversationQuality := 10 } } :
            ConversationAnalysis).conversationFlow.conversationQuality) :=
  flowPattern_runningAverage.2 [] [] { conversationFlow := { conversationQuality := 10 } }
    (by simp) (by simp)

set_option maxRecDepth 8000 in
/-- C4 counterexample: the dedup key is `{category}-{first 50 chars of issue}`, not the
first 50 characters of `{category}-{issue}`.  Two suggestions whose combined strings
share their first 50 characters (same 40-character issue prefix, differing later
inside the first 50 issue characters) are NOT merged: the map keeps two entries of
frequency 1 each. -/
theorem improvementKey_counterexample :
    ((SuggCategory.knowledge.toStr ++ "-" ++
        ("aaaaaaaaaaaaaaaaaaaaaaaaaaaaaaaaaaaaaaaa" ++ "11111")).take 50 =
      (SuggCategory.knowledge.toStr ++ "-" ++
        ("aaaaaaaaaaaaaaaaaaaaaaaaaaaaaaaaaaaaaaaa" ++ "22222")).take 50) ∧
    (improvementMapOf
        [{ improvementSuggestions :=
            [⟨.knowledge, "aaaaaaaaaaaaaaaaaaaaaaaaaaaaaaaaaaaaaaaa" ++ "11111", "sg",
              .high, ["e1"]⟩] },
         { improvementSuggestions :=
            [⟨.knowledge, "aaaaaaaaaaaaaaaaaaaaaaaaaaaaaaaaaaaaaaaa" ++ "22222", "sg",
              .high, ["e2"]⟩] }]).length = 2 ∧
    ((improvementMapOf
        [{ improvementSuggestions :=
            [⟨.knowledge, "aaaaaaaaaaaaaaaaaaaaaaaaaaaaaaaaaaaaaaaa" ++ "11111", "sg",
              .high, ["e1"]⟩] },
         { improvementSuggestions :=
            [⟨.knowledge, "aaaaaaaaaaaaaaaaaaaaaaaaaaaaaaaaaaaaaaaa" ++ "22222", "sg",
              .high, ["e2"]⟩] }]).map (fun e => e.2.2)) = [1, 1] := by
  refine ⟨by decide, ?_, ?_⟩ <;>
    · show _ = _
      rfl

set_option maxRecDepth 8000 in
/-- C4 amended: deduplication is keyed on `{category}-{first 50 characters of issue}`.
Two analyses with identical category and a shared 50-character issue prefix yield one
merged entry: frequency 2, the first suggestion\'s fields, and the deduplicated union
of the example lists capped at 3; `topImprovements` is that single suggestion; in
general `topImprovements` has at most 10 entries and the ranking relation sorts by
priority (high before medium before low), then frequency descending. -/
theorem improvementDedup_amended :
    (∀ (cat : SuggCategory) (issue1 issue2 sg1 sg2 : String) (prio1 prio2 : SuggPriority)
      (ex1 ex2 : List String),
      issue1.take 50 = issue2.take 50 →
      improvementMapOf
          [{ improvementSuggestions := [⟨cat, issue1, sg1, prio1, ex1⟩] },
           { improvementSuggestions := [⟨cat, issue2, sg2, prio2, ex2⟩] }] =
        [(cat.toStr ++ "-" ++ issue1.take 50,
          { category := cat, issue := issue1, suggestion := sg1, priority := prio1,
            examples := (dedupKeepFirst (ex1 ++ ex2)).take 3 }, 2)] ∧
      topImprovements
          [{ improvementSuggestions := [⟨cat, issue1, sg1, prio1, ex1⟩] },
           { improvementSuggestions := [⟨cat, issue2, sg2, prio2, ex2⟩] }] =
        [{ category := cat, issue := issue1, suggestion := sg1, priority := prio1,
           examples := (dedupKeepFirst (ex1 ++ ex2)).take 3 }]) ∧
    (∀ analyses : List ConversationAnalysis, (topImprovements analyses).length ≤ 10) ∧
    (∀ analyses : List ConversationAnalysis,
      (((improvementMapOf analyses).map (fun e => e.2)).insertionSort
        suggRankLe).Sorted suggRankLe) := by
  refine ⟨?_, ?_, ?_⟩
  · intro cat issue1 issue2 sg1 sg2 prio1 prio2 ex1 ex2 h
    have hb : ((suggKey (⟨cat, issue1, sg1, prio1, ex1⟩ : ImprovementSuggestion)) ==
        suggKey (⟨cat, issue2, sg2, prio2, ex2⟩ : ImprovementSuggestion)) = true := by
      simp [suggKey, h]
    have hstep2 : addSuggestion
        [(suggKey ⟨cat, issue1, sg1, prio1, ex1⟩, ⟨cat, issue1, sg1, prio1, ex1⟩, 1)]
        ⟨cat, issue2, sg2, prio2, ex2⟩ =
        [(suggKey ⟨cat, issue1, sg1, prio1, ex1⟩,
          { category := cat, issue := issue1, suggestion := sg1, priority := prio1,
            examples := (dedupKeepFirst (ex1 ++ ex2)).take 3 }, 2)] := by
      simp only [addSuggestion, List.any_cons, List.any_nil, hb, Bool.or_false, if_true,
        List.map_cons, List.map_nil]
    have hmap : improvementMapOf
        [{ improvementSuggestions := [⟨cat, issue1, sg1, prio1, ex1⟩] },
         { improvementSuggestions := [⟨cat, issue2, sg2, prio2, ex2⟩] }] =
        [(suggKey ⟨cat, issue1, sg1, prio1, ex1⟩,
          { category := cat, issue := issue1, suggestion := sg1, priority := prio1,
            examples := (dedupKeepFirst (ex1 ++ ex2)).take 3 }, 2)] := by
      have hfold : improvementMapOf
          [{ improvementSuggestions := [⟨cat, issue1, sg1, prio1, ex1⟩] },
           { improvementSuggestions := [⟨cat, issue2, sg2, prio2, ex2⟩] }] =
          addSuggestion (addSuggestion [] ⟨cat, issue1, sg1, prio1, ex1⟩)
            ⟨cat, issue2, sg2, prio2, ex2⟩ := by
        simp only [improvementMapOf, List.foldl_cons, List.foldl_nil]
      rw [hfold]
      have hstep1 : addSuggestion [] (⟨cat, issue1, sg1, prio1, ex1⟩ : ImprovementSuggestion) =
          [(suggKey ⟨cat, issue1, sg1, prio1, ex1⟩, ⟨cat, issue1, sg1, prio1, ex1⟩, 1)] := by
        simp only [addSuggestion, List.any_nil, Bool.false_eq_true, if_false, List.nil_append]
      rw [hstep1, hstep2]
    constructor
    · exact hmap
    · simp only [topImprovements, hmap]
      simp [List.insertionSort, List.orderedInsert]
  · intro analyses
    simp only [topImprovements, List.length_map, List.length_take]
    exact min_le_left _ _
  · intro analyses
    exact List.sorted_insertionSort _ _

theorem improvementDedup_amended_witness :
    improvementMapOf
        [{ improvementSuggestions := [⟨.knowledge, "i", "sg", .high, ["e1"]⟩] },
         { improvementSuggestions := [⟨.knowledge, "i", "sg", .high, ["e2"]⟩] }] =
      [(SuggCategory.knowledge.toStr ++ "-" ++ ("i" : String).take 50,
        { category := .knowledge, issue := "i", suggestion := "sg", priority := .high,
          examples := (dedupKeepFirst (["e1"] ++ ["e2"])).take 3 }, 2)] ∧
    topImprovements
        [{ improvementSuggestions := [⟨.knowledge, "i", "sg", .high, ["e1"]⟩] },
         { improvementSuggestions := [⟨.knowledge, "i", "sg", .high, ["e2"]⟩] }] =
      [{ category := .knowledge, issue := "i", suggestion := "sg", priority := .high,
         examples := (dedupKeepFirst (["e1"] ++ ["e2"])).take 3 }] :=
  improvementDedup_amended.1 .knowledge "i" "i" "sg" "sg" .high .high ["e1"] ["e2"] rfl
